import Mathlib

/-!
Shallow embedding of `torch/_inductor/cpu_vec_isa.py`.

The file models the ISA-descriptor catalog (`VecISA` and its subclasses),
the dry-compile verifier (`VecISA.check_build`), host feature detection
(`x86_isa_checker`, the `/proc/cpuinfo` scan) and the selector
(`valid_vec_isa_list`, `pick_vec_isa`).

Modelling conventions:
* Machine/OS/compiler facts that the Python module reads from its
  environment (`sys.platform`, `platform.machine()`, `platform.processor()`,
  `torch.cpu._is_cpu_support_*`, `torch.cpu._init_amx()`, the contents of
  `/proc/cpuinfo`, the compiler version string, `torch.__version__`) are
  fields of an `Env` record.
* The external collaborators used by `check_build` (`codecache.write`,
  `filelock.FileLock`, `CppBuilder.build`, the subprocess that loads the
  artifact) are modelled by a `BuildOutcome` oracle keyed by the arch
  flags and the probe source; each field says whether that step succeeds.
* Python exceptions that escape a function are modelled as `Except.error ()`;
  a normal return is `Except.ok`.
* Every function that can invoke `check_build` also returns the list of
  `check_build` invocations it performed (the fingerprint handed to `write`
  and the probe source), so that "no verification work was done / no lock
  file was created" is an observable statement (`calls = []`).
* The C++ probe sources are reproduced verbatim; `\x7b`/`\x7d` are the
  brace characters.
-/

namespace CpuVecIsa

/-- Element types appearing in the `_dtype_nelements` dictionaries
(`torch.float`, `torch.bfloat16`, `torch.float16`). -/
inductive DType
  | float
  | bfloat16
  | float16
deriving DecidableEq, Repr

/-- The recognized configuration inputs: `config.cpp.vec_isa_ok`,
`config.cpp.simdlen`, `config.is_fbcode()`. -/
structure Config where
  vec_isa_ok : Option Bool
  simdlen : Option Int
  is_fbcode : Bool
deriving DecidableEq, Repr

/-- Outcome of the external steps of one `VecISA.check_build` invocation,
for a given pair (arch flags, probe source):
`writeOk` — `codecache.write(code, "cpp", extra=fingerprint)` returns
without raising; `lockOk` — the named `FileLock` is acquired within
`LOCK_TIMEOUT` (false = `filelock.Timeout` is raised); `outputExists` —
`os.path.isfile(output_path)` on the already-compiled artifact;
`buildOk` — `x86_isa_help_builder.build()` returns without raising;
`loadOk` — the `subprocess.check_call` loading the artifact exits
cleanly. -/
structure BuildOutcome where
  writeOk : Bool
  lockOk : Bool
  outputExists : Bool
  buildOk : Bool
  loadOk : Bool
deriving DecidableEq, Repr

/-- The environment the module reads: configuration, platform facts,
CPU capability queries, `/proc/cpuinfo` (as a list of lines of
characters, `none` when the file is missing), the compiler version
string and torch version used by the fingerprint, and the build oracle. -/
structure Env where
  cfg : Config
  sys_platform : String
  machine : String
  processor : String
  cpu_avx2 : Bool
  cpu_avx512 : Bool
  cpu_amx_tile : Bool
  init_amx : Bool
  cpuinfo : Option (List (List Char))
  compilerInfo : String
  torchVersion : String
  buildOutcome : String → String → BuildOutcome

/-- Source: `_IS_WINDOWS = sys.platform == "win32"`. -/
def _IS_WINDOWS (env : Env) : Bool := env.sys_platform == "win32"

/-- The descriptor catalog: `VecAMX`, `VecAVX512`, `VecAVX2`, `VecNEON`,
`VecZVECTOR`, and the `InvalidVecISA` sentinel. -/
inductive VecISAKind
  | amx
  | avx512
  | avx2
  | neon
  | zvector
  | invalid
deriving DecidableEq, Repr

/-- Field `_bit_width` of each descriptor.  `VecAMX` declares no `_bit_width` of
its own and inherits `VecAVX512._bit_width = 512`. -/
def bit_width : VecISAKind → Int
  | .neon => 256
  | .avx512 => 512
  | .amx => 512
  | .avx2 => 256
  | .zvector => 256
  | .invalid => 0

/-- Method `__str__` of each descriptor (`VecAMX.__str__` is
`super().__str__() + " amx_tile"`). -/
def isaStr : VecISAKind → String
  | .neon => "asimd"
  | .avx512 => "avx512"
  | .amx => "avx512" ++ " amx_tile"
  | .avx2 => "avx2"
  | .zvector => "zvector"
  | .invalid => "INVALID_VEC_ISA"

/-- Field `VecAVX512._arch_flags`. -/
def avx512ArchFlags (isWindows : Bool) : String :=
  if isWindows then "/arch:AVX512" else "-mavx512f -mavx512dq -mavx512vl -mavx512bw -mfma"

/-- Field `_arch_flags` of each descriptor; `VecAMX._arch_flags` is
`VecAVX512._arch_flags + " -mamx-tile -mamx-bf16 -mamx-int8"`. -/
def build_arch_flags (isWindows : Bool) : VecISAKind → String
  | .neon => ""
  | .avx512 => avx512ArchFlags isWindows
  | .amx => avx512ArchFlags isWindows ++ " -mamx-tile -mamx-bf16 -mamx-int8"
  | .avx2 => if isWindows then "/arch:AVX2" else "-mavx2 -mfma -mf16c"
  | .zvector => "-mvx -mzvector"
  | .invalid => ""

/-- Field `_arch_flags` of a descriptor in a given environment. -/
def archFlagsE (env : Env) (k : VecISAKind) : String :=
  build_arch_flags (_IS_WINDOWS env) k

/-- Dictionary lookup in `_dtype_nelements` (`none` models a `KeyError`;
`InvalidVecISA._dtype_nelements` is the empty dict). -/
def dtype_nelements : VecISAKind → DType → Option Nat
  | .neon, .float => some 8
  | .neon, .bfloat16 => some 16
  | .neon, .float16 => some 16
  | .avx512, .float => some 16
  | .avx512, .bfloat16 => some 32
  | .avx512, .float16 => some 32
  | .amx, .float => some 16
  | .amx, .bfloat16 => some 32
  | .amx, .float16 => some 32
  | .avx2, .float => some 8
  | .avx2, .bfloat16 => some 16
  | .avx2, .float16 => some 16
  | .zvector, .float => some 8
  | .zvector, .bfloat16 => some 16
  | .zvector, .float16 => some 16
  | .invalid, _ => none

/-- Method `VecISA.nelements(dtype=torch.float)`. -/
def nelements (k : VecISAKind) (dtype : DType := DType.float) : Option Nat :=
  dtype_nelements k dtype

/-- Constant `VecISA._avx_code`, the dry-compile probe source. -/
def _avx_code : String :=
  "\n#if defined(CPU_CAPABILITY_AVX512) || defined(CPU_CAPABILITY_AVX2) || defined(CPU_CAPABILITY_ZVECTOR) || defined(CPU_CAPABILITY_NEON)\n#include <ATen/cpu/vec/functional.h>\n#include <ATen/cpu/vec/vec.h>\n#endif\n\nalignas(64) float in_out_ptr0[16] = \x7b0.0\x7d;\n\nextern \"C\" void __avx_chk_kernel() \x7b\n    auto tmp0 = at::vec::Vectorized<float>(1);\n    auto tmp1 = tmp0.exp();\n    tmp1.store(in_out_ptr0);\n\x7d\n"

/-- Constant `VecAMX._amx_code`, the additional AMX probe source. -/
def _amx_code : String :=
  "\n#include <cstdint>\n#include <immintrin.h>\n\nstruct amx_tilecfg \x7b\n  uint8_t palette_id;\n  uint8_t start_row;\n  uint8_t reserved_0[14];\n  uint16_t colsb[16];\n  uint8_t rows[16];\n\x7d;\n\nextern \"C\" void __amx_chk_kernel() \x7b\n  amx_tilecfg cfg = \x7b0\x7d;\n  _tile_loadconfig(&cfg);\n  _tile_zero(0);\n  _tile_dpbf16ps(0, 1, 2);\n  _tile_dpbusd(0, 1, 2);\n\x7d\n"

/-- Function `_get_isa_dry_compile_fingerprint`: the compiler version
string, the isa flags and the torch version joined by equals signs. -/
def _get_isa_dry_compile_fingerprint
    (compiler_info isa_flags torch_version : String) : String :=
  compiler_info ++ "=" ++ isa_flags ++ "=" ++ torch_version

/-- The fingerprint computed inside `check_build` for a descriptor's arch
flags, with the compiler version and torch version read from the
environment. -/
def envFingerprint (env : Env) (isa_flags : String) : String :=
  _get_isa_dry_compile_fingerprint env.compilerInfo isa_flags env.torchVersion

/-- A recorded `check_build` invocation: the `extra` fingerprint handed to
`codecache.write` and the probe source that was written.  Each such
invocation is also the only place a lock file is created. -/
abbrev Call := String × String

/-- Method `VecISA.check_build(code)`.  `write` and the `FileLock` acquisition sit
outside the `try` block, so a failure there raises (`Except.error`); the
`try` covers the build invocation and the subprocess load, whose failures
return `False`.  The build is skipped when the compiled artifact already
exists.  The invocation is recorded in the call list. -/
def check_build (env : Env) (arch_flags code : String) :
    Except Unit Bool × List Call :=
  let oc := env.buildOutcome arch_flags code
  let result : Except Unit Bool :=
    if !oc.writeOk then .error ()
    else if !oc.lockOk then .error ()
    else .ok ((oc.outputExists || oc.buildOk) && oc.loadOk)
  (result, [(envFingerprint env arch_flags, code)])

/-- Method `VecISA.__bool__`: an explicit `config.cpp.vec_isa_ok` wins; then
fbcode returns `True`; otherwise dry-compile `_avx_code` with this
descriptor's arch flags. -/
def vecISA_bool (env : Env) (arch_flags : String) :
    Except Unit Bool × List Call :=
  match env.cfg.vec_isa_ok with
  | some b => (.ok b, [])
  | none =>
    if env.cfg.is_fbcode then (.ok true, [])
    else check_build env arch_flags _avx_code

/-- Method `VecAMX.__bool__`: requires `super().__bool__()`, is unconditionally
`False` in fbcode, and otherwise additionally requires the `_amx_code`
dry-compile and `torch.cpu._init_amx()` to succeed. -/
def vecAMX_bool (env : Env) : Except Unit Bool × List Call :=
  match vecISA_bool env (archFlagsE env .amx) with
  | (.error e, t) => (.error e, t)
  | (.ok false, t) => (.ok false, t)
  | (.ok true, t) =>
    if env.cfg.is_fbcode then (.ok false, t)
    else
      match check_build env (archFlagsE env .amx) _amx_code with
      | (.error e, t2) => (.error e, t ++ t2)
      | (.ok b, t2) => (.ok (b && env.init_amx), t ++ t2)

/-- Dispatch of `bool(isa)` for each descriptor; `InvalidVecISA.__bool__` is always
`False` and consults nothing. -/
def isa_bool (env : Env) : VecISAKind → Except Unit Bool × List Call
  | .amx => vecAMX_bool env
  | .invalid => (.ok false, [])
  | k => vecISA_bool env (archFlagsE env k)

/-- Function `x86_isa_checker()`: empty unless `platform.machine()` is `x86_64` or
`AMD64`; then the three capability queries append their feature names in
order. -/
def x86_isa_checker (env : Env) : List String :=
  if env.machine != "x86_64" && env.machine != "AMD64" then []
  else
    (if env.cpu_avx2 then ["avx2"] else [])
      ++ (if env.cpu_avx512 then ["avx512"] else [])
      ++ (if env.cpu_amx_tile then ["amx_tile"] else [])

/-- Python `\s` (space, tab, newline, carriage return, vertical tab,
form feed). -/
def isPySpace (c : Char) : Bool :=
  c == ' ' || c == '\t' || c == '\n' || c == '\r' || c == '\x0b' || c == '\x0c'

/-- Match a literal prefix, returning the remainder. -/
def dropPrefixList : List Char → List Char → Option (List Char)
  | [], s => some s
  | _ :: _, [] => none
  | p :: ps, c :: cs => if c == p then dropPrefixList ps cs else none

/-- Regex `re.match(r"^features\s*:\s*(.*)$", line)` on a line without its
trailing newline: literal `features`, any whitespace, `:`, any
whitespace, and the captured rest of the line. -/
def featuresMatch (line : List Char) : Option (List Char) :=
  match dropPrefixList ("features".toList) line with
  | none => none
  | some rest =>
    match rest.dropWhile isPySpace with
    | ':' :: r2 => some (r2.dropWhile isPySpace)
    | _ => none

/-- Character class `[\^ ]` (inside a class, `^` in non-leading position is
the literal caret). -/
def isClass1 (c : Char) : Bool := c == '^' || c == ' '

/-- Character class `[\$ ]` (the dollar sign is literal inside a class). -/
def isClass2 (c : Char) : Bool := c == '$' || c == ' '

/-- Regex `re.search(r"[\^ ]+vxe[\$ ]+", group)`: somewhere in the string, a
character from `[\^ ]`, then literal `vxe`, then a character from
`[\$ ]` (one occurrence of each class character suffices for the `+`). -/
def hasVxeToken : List Char → Bool
  | [] => false
  | c1 :: rest =>
    (match rest with
     | 'v' :: 'x' :: 'e' :: c2 :: _ => isClass1 c1 && isClass2 c2
     | _ => false)
    || hasVxeToken rest

/-- One iteration of the s390x `/proc/cpuinfo` loop body: the line appends
a `VecZVECTOR` iff its `features` match exists and the captured group
contains the `vxe` token. -/
def lineAddsZvector (line : List Char) : Bool :=
  match featuresMatch line with
  | some group => hasVxeToken group
  | none => false

/-- The s390x scan over all lines of `/proc/cpuinfo`.  The `break` in the
source only leaves the inner loop over the (single) regex group, so the
outer line loop keeps running and every matching line appends. -/
def zvectorScan (lines : List (List Char)) : List VecISAKind :=
  lines.foldl
    (fun acc line => if lineAddsZvector line then acc ++ [VecISAKind.zvector] else acc)
    []

/-- Helper for `pySplit`: accumulate the current token (reversed) and cut
at whitespace. -/
def splitTokens : List Char → List Char → List String
  | [], acc => if acc.isEmpty then [] else [String.mk acc.reverse]
  | c :: cs, acc =>
    if isPySpace c then
      (if acc.isEmpty then [] else [String.mk acc.reverse]) ++ splitTokens cs []
    else splitTokens cs (c :: acc)

/-- Python `str.split()` with no separator: split on runs of whitespace,
producing no empty tokens. -/
def pySplit (s : String) : List String := splitTokens s.toList []

/-- Catalog `supported_vec_isa_list = [VecAMX(), VecAVX512(), VecAVX2(), VecNEON()]`. -/
def supported_vec_isa_list : List VecISAKind :=
  [.amx, .avx512, .avx2, .neon]

/-- The x86 branch of `valid_vec_isa_list`: keep each catalog entry iff all
tokens of `str(isa).split()` are reported by `x86_isa_checker` and
`bool(isa)` is true; an exception from `bool(isa)` propagates. -/
def x86Scan (env : Env) : List VecISAKind → Except Unit (List VecISAKind) × List Call
  | [] => (.ok [], [])
  | k :: rest =>
    if (pySplit (isaStr k)).all (fun flag => (x86_isa_checker env).contains flag) then
      match isa_bool env k with
      | (.error e, t) => (.error e, t)
      | (.ok b, t) =>
        match x86Scan env rest with
        | (.error e, t2) => (.error e, t ++ t2)
        | (.ok l, t2) => (.ok ((if b then [k] else []) ++ l), t ++ t2)
    else x86Scan env rest

/-- Function `valid_vec_isa_list()`: NEON is prepended unconditionally on
darwin/arm; non-linux/win32 platforms stop there; s390x scans
`/proc/cpuinfo` (raising if the file is missing); aarch64 appends NEON
unconditionally; x86 runs the verified scan. -/
def valid_vec_isa_list (env : Env) :
    Except Unit (List VecISAKind) × List Call :=
  let isa_list : List VecISAKind :=
    if env.sys_platform == "darwin" && env.processor == "arm" then [.neon] else []
  if !(env.sys_platform == "linux" || env.sys_platform == "win32") then
    (.ok isa_list, [])
  else if env.machine == "s390x" then
    match env.cpuinfo with
    | none => (.error (), [])
    | some lines => (.ok (isa_list ++ zvectorScan lines), [])
  else if env.machine == "aarch64" then
    (.ok (isa_list ++ [.neon]), [])
  else if env.machine == "x86_64" || env.machine == "AMD64" then
    match x86Scan env supported_vec_isa_list with
    | (.error e, t) => (.error e, t)
    | (.ok l, t) => (.ok (isa_list ++ l), t)
  else
    (.ok isa_list, [])

/-- The final loop of `pick_vec_isa`: first list element whose
`bit_width()` equals `config.cpp.simdlen`, else the sentinel. -/
def pickLoop (simdlen : Int) : List VecISAKind → VecISAKind
  | [] => .invalid
  | isa :: rest => if simdlen == bit_width isa then isa else pickLoop simdlen rest

/-- Function `pick_vec_isa()`: fbcode returns a fresh `VecAVX2` before anything
else; an empty valid list yields the sentinel; `simdlen=None` yields the
first (highest-priority) valid descriptor; otherwise the first exact
bit-width match or the sentinel. -/
def pick_vec_isa (env : Env) : Except Unit VecISAKind × List Call :=
  if env.cfg.is_fbcode then (.ok .avx2, [])
  else
    match valid_vec_isa_list env with
    | (.error e, t) => (.error e, t)
    | (.ok [], t) => (.ok .invalid, t)
    | (.ok (isa :: rest), t) =>
      match env.cfg.simdlen with
      | none => (.ok isa, t)
      | some n => (.ok (pickLoop n (isa :: rest)), t)

/-! ## Concrete environments used by witnesses and counterexamples -/

/-- A fully successful build oracle outcome. -/
def buildAllOk : BuildOutcome :=
  { writeOk := true, lockOk := true, outputExists := false, buildOk := true, loadOk := true }

/-- A build outcome whose compile and artifact load fail (probe write and
lock acquisition fine). -/
def buildCompileFail : BuildOutcome :=
  { writeOk := true, lockOk := true, outputExists := false, buildOk := false, loadOk := false }

/-- A build outcome whose lock acquisition times out. -/
def buildLockTimeout : BuildOutcome :=
  { writeOk := true, lockOk := false, outputExists := false, buildOk := true, loadOk := true }

/-- Baseline concrete environment: linux/x86_64 host reporting all three
CPU features, automatic configuration, every build step succeeding. -/
def envBase : Env :=
  { cfg := { vec_isa_ok := none, simdlen := none, is_fbcode := false }
    sys_platform := "linux", machine := "x86_64", processor := ""
    cpu_avx2 := true, cpu_avx512 := true, cpu_amx_tile := true, init_amx := true
    cpuinfo := none, compilerInfo := "gcc (GCC) 11.4.0", torchVersion := "2.4.0"
    buildOutcome := fun _ _ => buildAllOk }

/-- aarch64 linux host whose dry-compiles would all fail. -/
def envAarch64 : Env :=
  { envBase with machine := "aarch64", buildOutcome := fun _ _ => buildCompileFail }

/-- Environment with `vec_isa_ok` forced to `True` but every dry-compile
failing. -/
def envForcedTrue : Env :=
  { envBase with
    cfg := { vec_isa_ok := some true, simdlen := none, is_fbcode := false }
    buildOutcome := fun _ _ => buildCompileFail }

/-- Environment whose lock acquisition always times out. -/
def envLockTimeout : Env :=
  { envBase with buildOutcome := fun _ _ => buildLockTimeout }

/-- s390x linux host with `/proc/cpuinfo` missing. -/
def envS390Missing : Env :=
  { envBase with machine := "s390x" }

/-- Lines of a malformed s390x `/proc/cpuinfo`: no features line carries
the `vxe` token. -/
def s390MalformedLines : List (List Char) :=
  [("processor 0: version = FF".toList), ("features : esan3 zarch stfle msa".toList)]

/-- s390x linux host with a malformed `/proc/cpuinfo`. -/
def envS390Malformed : Env :=
  { envBase with machine := "s390x", cpuinfo := some s390MalformedLines }

/-- fbcode-mode environment. -/
def envFbcode : Env :=
  { envBase with cfg := { vec_isa_ok := none, simdlen := none, is_fbcode := true } }

/-- Environment where the AMX runtime tile-enable fails but every
dry-compile succeeds. -/
def envAmxInitFail : Env :=
  { envBase with init_amx := false }

/-- avx2-only host with an unsatisfiable explicit `simdlen = 999`. -/
def envSimdlen999 : Env :=
  { envBase with
    cfg := { vec_isa_ok := none, simdlen := some 999, is_fbcode := false }
    cpu_avx512 := false, cpu_amx_tile := false }

/-- avx2-only host with automatic configuration. -/
def envAvx2Only : Env :=
  { envBase with cpu_avx512 := false, cpu_amx_tile := false }

/-- Full-featured host with an explicit `simdlen = 512`. -/
def envSimdlen512 : Env :=
  { envBase with cfg := { vec_isa_ok := none, simdlen := some 512, is_fbcode := false } }


/-! ## Helper lemmas -/

/-- Pair form of `check_build_ok`, including the recorded call. -/
lemma check_build_pair_ok (env : Env) (flags code : String)
    (hw : (env.buildOutcome flags code).writeOk = true)
    (hl : (env.buildOutcome flags code).lockOk = true) :
    check_build env flags code =
      (.ok (((env.buildOutcome flags code).outputExists
             || (env.buildOutcome flags code).buildOk)
            && (env.buildOutcome flags code).loadOk),
       [(envFingerprint env flags, code)]) := by
  simp [check_build, hw, hl]

/-- Without a configuration override and outside fbcode, the base
usability check is exactly the `_avx_code` dry-compile. -/
lemma vecISA_bool_auto (env : Env) (flags : String)
    (hok : env.cfg.vec_isa_ok = none) (hfb : env.cfg.is_fbcode = false) :
    vecISA_bool env flags = check_build env flags _avx_code := by
  simp [vecISA_bool, hok, hfb]

/-- The x86 feature list when the host reports avx512 and amx_tile. -/
lemma x86_checker_full (env : Env)
    (hm : env.machine = "x86_64" ∨ env.machine = "AMD64")
    (h512 : env.cpu_avx512 = true) (hamx : env.cpu_amx_tile = true) :
    x86_isa_checker env
      = (if env.cpu_avx2 then ["avx2"] else []) ++ ["avx512", "amx_tile"] := by
  rcases hm with h | h <;> simp [x86_isa_checker, h, h512, hamx]

/-- The x86 feature list when the host reports only avx2. -/
lemma x86_checker_avx2only (env : Env)
    (hm : env.machine = "x86_64" ∨ env.machine = "AMD64")
    (ha2 : env.cpu_avx2 = true)
    (h512 : env.cpu_avx512 = false) (hamx : env.cpu_amx_tile = false) :
    x86_isa_checker env = ["avx2"] := by
  rcases hm with h | h <;> simp [x86_isa_checker, h, ha2, h512, hamx]


/-- Fact: `check_build` returns normally once the probe write and the lock
acquisition succeed; the result is true iff the artifact already exists
or builds cleanly, and the subprocess load succeeds. -/
lemma check_build_ok (env : Env) (flags code : String)
    (hw : (env.buildOutcome flags code).writeOk = true)
    (hl : (env.buildOutcome flags code).lockOk = true) :
    (check_build env flags code).1 =
      .ok (((env.buildOutcome flags code).outputExists
            || (env.buildOutcome flags code).buildOk)
           && (env.buildOutcome flags code).loadOk) := by
  simp [check_build, hw, hl]

/-- The call trace of one `check_build` invocation. -/
lemma check_build_calls (env : Env) (flags code : String) :
    (check_build env flags code).2 = [(envFingerprint env flags, code)] := rfl

/-- Cancel a common suffix of string concatenation. -/
lemma string_append_right_cancel (a b s : String) (h : a ++ s = b ++ s) : a = b := by
  have hd : a.data ++ s.data = b.data ++ s.data := congrArg String.data h
  exact congrArg String.mk (List.append_cancel_right hd)

/-- The selector loop is `List.find?` on an exact bit-width match, with
the sentinel as fallback. -/
lemma pickLoop_eq_find (n : Int) (l : List VecISAKind) :
    pickLoop n l = ((l.find? fun x => n == bit_width x).getD .invalid) := by
  induction l with
  | nil => rfl
  | cons x xs ih =>
    by_cases h : n = bit_width x
    · simp [pickLoop, List.find?, h]
    · have hb : (n == bit_width x) = false := by simpa using h
      simp [pickLoop, List.find?, hb, ih]

/-- The selector loop returns a list element or the sentinel. -/
lemma pickLoop_mem (n : Int) (l : List VecISAKind) :
    pickLoop n l ∈ l ∨ pickLoop n l = .invalid := by
  induction l with
  | nil => exact Or.inr rfl
  | cons x xs ih =>
    by_cases h : (n == bit_width x) = true
    · simp [pickLoop, h]
    · have hb : (n == bit_width x) = false := by simpa using h
      rcases ih with hmem | hinv
      · exact Or.inl (by simp [pickLoop, hb, hmem])
      · exact Or.inr (by simp [pickLoop, hb, hinv])

/-- The s390x fold leaves the accumulator untouched when no line matches. -/
lemma zvector_foldl_fixed (lines : List (List Char)) (acc : List VecISAKind)
    (h : ∀ l ∈ lines, lineAddsZvector l = false) :
    lines.foldl
      (fun acc line => if lineAddsZvector line then acc ++ [VecISAKind.zvector] else acc)
      acc = acc := by
  induction lines generalizing acc with
  | nil => rfl
  | cons x xs ih =>
    have hx : lineAddsZvector x = false := h x (by simp)
    simp only [List.foldl_cons, hx, if_false, Bool.false_eq_true]
    exact ih acc (fun l hl => h l (by simp [hl]))

/-- No matching line in `/proc/cpuinfo` yields an empty s390x scan. -/
lemma zvectorScan_eq_nil (lines : List (List Char))
    (h : lines.all (fun l => !lineAddsZvector l) = true) :
    zvectorScan lines = [] := by
  apply zvector_foldl_fixed
  intro l hl
  have := List.all_eq_true.mp h l hl
  simpa using this

/-- Every element produced by the s390x fold is the ZVECTOR descriptor or
was already in the accumulator. -/
lemma zvector_foldl_mem (lines : List (List Char)) (acc : List VecISAKind)
    (k : VecISAKind)
    (h : k ∈ lines.foldl
      (fun acc line => if lineAddsZvector line then acc ++ [VecISAKind.zvector] else acc)
      acc) : k ∈ acc ∨ k = .zvector := by
  induction lines generalizing acc with
  | nil => exact Or.inl h
  | cons x xs ih =>
    simp only [List.foldl_cons] at h
    by_cases hx : lineAddsZvector x = true
    · rw [if_pos hx] at h
      rcases ih (acc ++ [VecISAKind.zvector]) h with hmem | hz
      · rcases List.mem_append.mp hmem with h1 | h2
        · exact Or.inl h1
        · exact Or.inr (by simpa using h2)
      · exact Or.inr hz
    · rw [if_neg hx] at h
      exact ih acc h

/-- Every element of the s390x scan is the ZVECTOR descriptor. -/
lemma zvectorScan_mem (lines : List (List Char)) (k : VecISAKind)
    (h : k ∈ zvectorScan lines) : k = .zvector := by
  rcases zvector_foldl_mem lines [] k h with hmem | hz
  · simp at hmem
  · exact hz

/-- Boolean forms of the platform conditionals for a linux/win32 x86
host. -/
lemma platform_facts (env : Env)
    (hsys : env.sys_platform = "linux" ∨ env.sys_platform = "win32")
    (hm : env.machine = "x86_64" ∨ env.machine = "AMD64") :
    (env.sys_platform == "darwin" && env.processor == "arm") = false
    ∧ (!(env.sys_platform == "linux" || env.sys_platform == "win32")) = false
    ∧ (env.machine == "s390x") = false
    ∧ (env.machine == "aarch64") = false
    ∧ (env.machine == "x86_64" || env.machine == "AMD64") = true := by
  rcases hsys with h | h <;> rcases hm with h2 | h2 <;> simp [h, h2]

/-- On a linux/win32 x86 host, `valid_vec_isa_list` is exactly the x86
scan of the descriptor catalog. -/
lemma valid_x86_eq (env : Env)
    (hsys : env.sys_platform = "linux" ∨ env.sys_platform = "win32")
    (hm : env.machine = "x86_64" ∨ env.machine = "AMD64")
    (l : List VecISAKind) (t : List Call)
    (hscan : x86Scan env supported_vec_isa_list = (.ok l, t)) :
    valid_vec_isa_list env = (.ok l, t) := by
  obtain ⟨f1, f2, f3, f4, f5⟩ := platform_facts env hsys hm
  simp [valid_vec_isa_list, f1, f2, f3, f4, f5, hscan]

/-- Error version of `valid_x86_eq`. -/
lemma valid_x86_eq_err (env : Env)
    (hsys : env.sys_platform = "linux" ∨ env.sys_platform = "win32")
    (hm : env.machine = "x86_64" ∨ env.machine = "AMD64")
    (e : Unit) (t : List Call)
    (hscan : x86Scan env supported_vec_isa_list = (.error e, t)) :
    valid_vec_isa_list env = (.error e, t) := by
  obtain ⟨f1, f2, f3, f4, f5⟩ := platform_facts env hsys hm
  simp [valid_vec_isa_list, f1, f2, f3, f4, f5, hscan]

/-- Every descriptor kept by the x86 scan is a catalog candidate whose
`bool(isa)` evaluated to `True`. -/
lemma x86Scan_mem (env : Env) (cands : List VecISAKind) :
    ∀ l t, x86Scan env cands = (.ok l, t) →
    ∀ k ∈ l, k ∈ cands ∧ (isa_bool env k).1 = .ok true := by
  induction cands with
  | nil =>
    intro l t h
    simp only [x86Scan, Prod.mk.injEq, Except.ok.injEq] at h
    obtain ⟨hl, _⟩ := h
    subst hl
    intro k hk
    simp at hk
  | cons c rest ih =>
    intro l t h
    simp only [x86Scan] at h
    split at h
    · rcases hbool : isa_bool env c with ⟨rb, tb⟩
      rw [hbool] at h
      cases rb with
      | error e => simp at h
      | ok b =>
        rcases hrest : x86Scan env rest with ⟨rr, tr⟩
        rw [hrest] at h
        cases rr with
        | error e => simp at h
        | ok lr =>
          simp only [Prod.mk.injEq, Except.ok.injEq] at h
          obtain ⟨hl, _⟩ := h
          subst hl
          intro k hk
          rcases List.mem_append.mp hk with hk1 | hk2
          · cases b with
            | true =>
              simp only [if_true] at hk1
              have hkc : k = c := by simpa using hk1
              subst hkc
              exact ⟨List.mem_cons_self _ _, by rw [hbool]⟩
            | false => simp at hk1
          · have := ih lr tr hrest k hk2
            exact ⟨List.mem_cons_of_mem _ this.1, this.2⟩
    · intro k hk
      have := ih l t h k hk
      exact ⟨List.mem_cons_of_mem _ this.1, this.2⟩

/-- If the base descriptor usability check returned `True`, then either
the configuration forced it, or fbcode mode did, or the `_avx_code`
dry-compile with these flags passed. -/
lemma vecISA_bool_true_origin (env : Env) (flags : String)
    (h : (vecISA_bool env flags).1 = .ok true) :
    env.cfg.vec_isa_ok = some true ∨ env.cfg.is_fbcode = true ∨
      (check_build env flags _avx_code).1 = .ok true := by
  unfold vecISA_bool at h
  cases hok : env.cfg.vec_isa_ok with
  | some b =>
    rw [hok] at h
    cases b with
    | false => simp at h
    | true => exact Or.inl rfl
  | none =>
    rw [hok] at h
    by_cases hfb : env.cfg.is_fbcode = true
    · exact Or.inr (Or.inl hfb)
    · have hfb2 : env.cfg.is_fbcode = false := by simpa using hfb
      rw [hfb2] at h
      simp only [Bool.false_eq_true, if_false] at h
      exact Or.inr (Or.inr h)

/-- Same origin property for the full dispatch `bool(isa)`. -/
lemma isa_bool_true_origin (env : Env) (k : VecISAKind)
    (h : (isa_bool env k).1 = .ok true) :
    env.cfg.vec_isa_ok = some true ∨ env.cfg.is_fbcode = true ∨
      (check_build env (archFlagsE env k) _avx_code).1 = .ok true := by
  cases k with
  | invalid => simp [isa_bool] at h
  | amx =>
    have h2 : (vecAMX_bool env).1 = .ok true := h
    unfold vecAMX_bool at h2
    rcases hs : vecISA_bool env (archFlagsE env .amx) with ⟨rs, ts⟩
    rw [hs] at h2
    cases rs with
    | error e => simp at h2
    | ok bs =>
      cases bs with
      | false => simp at h2
      | true => exact vecISA_bool_true_origin env (archFlagsE env .amx) (by rw [hs])
  | avx512 => exact vecISA_bool_true_origin env (archFlagsE env .avx512) h
  | avx2 => exact vecISA_bool_true_origin env (archFlagsE env .avx2) h
  | neon => exact vecISA_bool_true_origin env (archFlagsE env .neon) h
  | zvector => exact vecISA_bool_true_origin env (archFlagsE env .zvector) h

/-- On a linux/win32 x86 host, every member of the valid list passed its
usability check. -/
lemma valid_mem_x86 (env : Env) (l : List VecISAKind) (t : List Call)
    (hsys : env.sys_platform = "linux" ∨ env.sys_platform = "win32")
    (hm : env.machine = "x86_64" ∨ env.machine = "AMD64")
    (hv : valid_vec_isa_list env = (.ok l, t)) :
    ∀ k ∈ l, k ∈ supported_vec_isa_list ∧ (isa_bool env k).1 = .ok true := by
  rcases hscan : x86Scan env supported_vec_isa_list with ⟨rs, ts⟩
  cases rs with
  | error e =>
    have := valid_x86_eq_err env hsys hm e ts hscan
    rw [this] at hv
    simp at hv
  | ok ls =>
    have := valid_x86_eq env hsys hm ls ts hscan
    rw [this] at hv
    simp only [Prod.mk.injEq, Except.ok.injEq] at hv
    obtain ⟨hl, _⟩ := hv
    subst hl
    exact x86Scan_mem env supported_vec_isa_list ls ts hscan

/-- One-step unfolding of the x86 scan. -/
lemma x86Scan_cons (env : Env) (k : VecISAKind) (rest : List VecISAKind) :
    x86Scan env (k :: rest) =
      if (pySplit (isaStr k)).all (fun flag => (x86_isa_checker env).contains flag) then
        match isa_bool env k with
        | (.error e, t) => (.error e, t)
        | (.ok b, t) =>
          match x86Scan env rest with
          | (.error e, t2) => (.error e, t ++ t2)
          | (.ok l, t2) => (.ok ((if b then [k] else []) ++ l), t ++ t2)
      else x86Scan env rest := rfl

/-- One scan step when the host feature gate fails. -/
lemma x86Scan_cons_nogate (env : Env) (k : VecISAKind) (rest : List VecISAKind)
    (hg : (pySplit (isaStr k)).all (fun flag => (x86_isa_checker env).contains flag) = false) :
    x86Scan env (k :: rest) = x86Scan env rest := by
  rw [x86Scan_cons, hg]
  simp

/-- One scan step when the gate passes and `bool(isa)` is `False`. -/
lemma x86Scan_cons_skip (env : Env) (k : VecISAKind) (rest : List VecISAKind)
    (tb : List Call) (l : List VecISAKind) (tr : List Call)
    (hg : (pySplit (isaStr k)).all (fun flag => (x86_isa_checker env).contains flag) = true)
    (hb : isa_bool env k = (.ok false, tb))
    (hrest : x86Scan env rest = (.ok l, tr)) :
    x86Scan env (k :: rest) = (.ok l, tb ++ tr) := by
  rw [x86Scan_cons, hg, hb, hrest]
  simp

/-- One scan step when the gate passes and `bool(isa)` is `True`. -/
lemma x86Scan_cons_keep (env : Env) (k : VecISAKind) (rest : List VecISAKind)
    (tb : List Call) (l : List VecISAKind) (tr : List Call)
    (hg : (pySplit (isaStr k)).all (fun flag => (x86_isa_checker env).contains flag) = true)
    (hb : isa_bool env k = (.ok true, tb))
    (hrest : x86Scan env rest = (.ok l, tr)) :
    x86Scan env (k :: rest) = (.ok (k :: l), tb ++ tr) := by
  rw [x86Scan_cons, hg, hb, hrest]
  simp

/-- When the AMX descriptor is in the valid list at all, it is the list's
head (the catalog is scanned most-capable-first and nothing precedes
AMX). -/
lemma valid_amx_head (env : Env) (l : List VecISAKind) (t : List Call)
    (hv : valid_vec_isa_list env = (.ok l, t)) (hmem : VecISAKind.amx ∈ l) :
    ∃ rest, l = VecISAKind.amx :: rest := by
  unfold valid_vec_isa_list at hv
  by_cases hlin : (env.sys_platform == "linux" || env.sys_platform == "win32") = true
  · have hlin2 : env.sys_platform = "linux" ∨ env.sys_platform = "win32" := by
      simpa using hlin
    have hdar : (env.sys_platform == "darwin") = false := by
      rcases hlin2 with h | h <;> simp [h]
    simp only [hdar, Bool.false_and, Bool.false_eq_true, if_false, hlin, Bool.not_true,
      List.nil_append] at hv
    by_cases hs390 : (env.machine == "s390x") = true
    · rw [if_pos hs390] at hv
      cases hci : env.cpuinfo with
      | none => rw [hci] at hv; simp at hv
      | some lines =>
        rw [hci] at hv
        simp only [Prod.mk.injEq, Except.ok.injEq] at hv
        obtain ⟨hl, _⟩ := hv
        subst hl
        have := zvectorScan_mem lines _ hmem
        simp at this
    · rw [if_neg hs390] at hv
      by_cases haarch : (env.machine == "aarch64") = true
      · rw [if_pos haarch] at hv
        simp only [Prod.mk.injEq, Except.ok.injEq] at hv
        obtain ⟨hl, _⟩ := hv
        subst hl
        simp at hmem
      · rw [if_neg haarch] at hv
        by_cases hx86 : (env.machine == "x86_64" || env.machine == "AMD64") = true
        · rw [if_pos hx86] at hv
          rcases hscan : x86Scan env supported_vec_isa_list with ⟨rs, ts⟩
          rw [hscan] at hv
          cases rs with
          | error e => simp at hv
          | ok ls =>
            simp only [Prod.mk.injEq, Except.ok.injEq] at hv
            obtain ⟨hl, _⟩ := hv
            subst hl
            -- analyze the first scan step (the AMX candidate)
            rw [show supported_vec_isa_list
                  = VecISAKind.amx :: [VecISAKind.avx512, VecISAKind.avx2, VecISAKind.neon]
                from rfl, x86Scan_cons] at hscan
            split at hscan
            · rcases hbool : isa_bool env .amx with ⟨rb, tb⟩
              rw [hbool] at hscan
              cases rb with
              | error e => simp at hscan
              | ok b =>
                rcases hrest : x86Scan env [.avx512, .avx2, .neon] with ⟨rr, tr⟩
                rw [hrest] at hscan
                cases rr with
                | error e => simp at hscan
                | ok lr =>
                  simp only [Prod.mk.injEq, Except.ok.injEq] at hscan
                  obtain ⟨hl2, _⟩ := hscan
                  subst hl2
                  cases b with
                  | true => exact ⟨lr, by simp⟩
                  | false =>
                    simp only [Bool.false_eq_true, if_false, List.nil_append] at hmem
                    have := (x86Scan_mem env _ lr tr hrest _ hmem).1
                    simp at this
            · have := (x86Scan_mem env _ ls ts hscan _ hmem).1
              simp at this
        · rw [if_neg hx86] at hv
          simp only [Prod.mk.injEq, Except.ok.injEq] at hv
          obtain ⟨hl, _⟩ := hv
          subst hl
          simp at hmem
  · have hlin2 : (env.sys_platform == "linux" || env.sys_platform == "win32") = false := by
      simpa using hlin
    rw [hlin2] at hv
    simp only [Bool.not_false, if_true, Prod.mk.injEq, Except.ok.injEq] at hv
    obtain ⟨hl, _⟩ := hv
    subst hl
    split at hmem <;> simp at hmem

/-! ## Claims -/

/-- C3 counterexample: with the probe source written successfully but the
named-file-lock acquisition timing out, `check_build` raises (the
`filelock.Timeout` propagates — both sit outside the `try` block) instead
of returning `False` as the claim requires. -/
theorem c3_check_build_counterexample :
    (envLockTimeout.buildOutcome "" _avx_code).writeOk = true ∧
    (envLockTimeout.buildOutcome "" _avx_code).lockOk = false ∧
    (check_build envLockTimeout "" _avx_code).1 = .error () :=
  ⟨rfl, rfl, rfl⟩

/-- C3 (amended): once the probe write succeeds and the lock is acquired,
`check_build` never raises and returns `True` exactly when the artifact
already exists or builds cleanly and the subprocess load succeeds; a
failure writing the probe source or acquiring the lock (including a
lock timeout) instead propagates as an exception. -/
theorem c3_check_build_total (env : Env) (arch_flags code : String) :
    ((env.buildOutcome arch_flags code).writeOk = true →
     (env.buildOutcome arch_flags code).lockOk = true →
      (check_build env arch_flags code).1 =
        .ok (((env.buildOutcome arch_flags code).outputExists
              || (env.buildOutcome arch_flags code).buildOk)
             && (env.buildOutcome arch_flags code).loadOk))
    ∧ ((env.buildOutcome arch_flags code).writeOk = false
        ∨ (env.buildOutcome arch_flags code).lockOk = false →
      (check_build env arch_flags code).1 = .error ()) := by
  constructor
  · intro hw hl
    exact check_build_ok env arch_flags code hw hl
  · intro h
    rcases h with h | h
    · simp [check_build, h]
    · cases hw : (env.buildOutcome arch_flags code).writeOk <;>
        simp [check_build, h, hw]

/-- C3 witness: in the baseline environment the amended theorem yields a
clean `True` verification result. -/
theorem c3_check_build_total_witness :
    (check_build envBase "" _avx_code).1 = .ok true :=
  ((c3_check_build_total envBase "" _avx_code).1 rfl rfl).trans rfl

/-- C4 counterexample: on an s390x linux host with `/proc/cpuinfo`
missing, `valid_vec_isa_list` raises (the `open` call is not guarded)
rather than returning an empty list as the claim requires. -/
theorem c4_missing_cpuinfo_counterexample :
    envS390Missing.machine = "s390x" ∧ envS390Missing.cpuinfo = none ∧
    valid_vec_isa_list envS390Missing = (.error (), []) :=
  ⟨rfl, rfl, rfl⟩

/-- C4 (amended): on an s390x linux host, a present but malformed
`/proc/cpuinfo` (no line both matching the `features` pattern and
carrying the `vxe` token) yields an empty ISA list without error, while
a missing `/proc/cpuinfo` propagates an exception. -/
theorem c4_s390x_cpuinfo (env : Env)
    (hsys : env.sys_platform = "linux")
    (hm : env.machine = "s390x") :
    (env.cpuinfo = none → valid_vec_isa_list env = (.error (), []))
    ∧ (∀ lines, env.cpuinfo = some lines →
        lines.all (fun l => !lineAddsZvector l) = true →
        valid_vec_isa_list env = (.ok [], [])) := by
  constructor
  · intro h
    simp [valid_vec_isa_list, hsys, hm, h]
  · intro lines h hall
    simp [valid_vec_isa_list, hsys, hm, h, zvectorScan_eq_nil lines hall]

/-- C4 witness: the malformed-file case yields an empty list, the
missing-file case an exception. -/
theorem c4_s390x_cpuinfo_witness :
    valid_vec_isa_list envS390Malformed = (.ok [], []) ∧
    valid_vec_isa_list envS390Missing = (.error (), []) :=
  ⟨(c4_s390x_cpuinfo envS390Malformed rfl rfl).2 s390MalformedLines rfl (by decide),
   (c4_s390x_cpuinfo envS390Missing rfl rfl).1 rfl⟩

/-- C5: whenever `is_fbcode()` is true, `pick_vec_isa` returns the AVX2
descriptor (bit width 256) unconditionally: the valid list is never
computed, and the empty call trace shows no `check_build` ran (hence no
probe was written and no lock file was created). -/
theorem c5_fbcode_returns_avx2 (env : Env) (h : env.cfg.is_fbcode = true) :
    pick_vec_isa env = (.ok .avx2, []) ∧ bit_width .avx2 = 256 := by
  constructor
  · simp [pick_vec_isa, h]
  · rfl

/-- C5 witness. -/
theorem c5_fbcode_returns_avx2_witness :
    pick_vec_isa envFbcode = (.ok .avx2, []) ∧ bit_width .avx2 = 256 :=
  c5_fbcode_returns_avx2 envFbcode rfl

/-- C9: the dry-compile fingerprint is exactly the compiler version
string, the arch flags and the torch version joined by `=`; it is
precisely what `check_build` hands to the artifact-store write; and two
environments differing only in compiler version string produce different
fingerprints for the same flags and torch version. -/
theorem c9_fingerprint_exact :
    (∀ c f v, _get_isa_dry_compile_fingerprint c f v = c ++ "=" ++ f ++ "=" ++ v)
    ∧ (∀ env arch_flags code, (check_build env arch_flags code).2 =
        [(_get_isa_dry_compile_fingerprint env.compilerInfo arch_flags env.torchVersion, code)])
    ∧ (∀ c₁ c₂ f v, c₁ ≠ c₂ →
        _get_isa_dry_compile_fingerprint c₁ f v ≠ _get_isa_dry_compile_fingerprint c₂ f v) := by
  refine ⟨fun c f v => rfl, fun env arch_flags code => rfl, ?_⟩
  intro c₁ c₂ f v hne h
  unfold _get_isa_dry_compile_fingerprint at h
  apply hne
  have h1 := string_append_right_cancel _ _ v h
  have h2 := string_append_right_cancel _ _ "=" h1
  have h3 := string_append_right_cancel _ _ f h2
  exact string_append_right_cancel _ _ "=" h3

/-- C9 witness: two concrete compiler version strings with identical
flags and torch version give distinct fingerprints. -/
theorem c9_fingerprint_exact_witness :
    _get_isa_dry_compile_fingerprint "gcc (GCC) 12.3.0" "-mavx2 -mfma -mf16c" "2.4.0"
      ≠ _get_isa_dry_compile_fingerprint "gcc (GCC) 13.1.0" "-mavx2 -mfma -mf16c" "2.4.0" :=
  c9_fingerprint_exact.2.2 "gcc (GCC) 12.3.0" "gcc (GCC) 13.1.0"
    "-mavx2 -mfma -mf16c" "2.4.0" (by decide)

/-- C2 counterexample: with `vec_isa_ok = True` forced, fbcode off and the
AMX probe compile failing, `VecAMX.__bool__` returns `False` — not the
forced boolean — and performs a `check_build` invocation (the call trace
is non-empty, so a probe is written and a lock taken). -/
theorem c2_amx_override_counterexample :
    envForcedTrue.cfg.vec_isa_ok = some true ∧
    isa_bool envForcedTrue .amx =
      (.ok false, [(envFingerprint envForcedTrue (archFlagsE envForcedTrue .amx), _amx_code)]) ∧
    (isa_bool envForcedTrue .amx).1 ≠ .ok true :=
  ⟨rfl, rfl, fun h => Bool.noConfusion (Except.ok.inj h)⟩

/-- C2 (amended): an explicit `vec_isa_ok` boolean short-circuits
verification for every base descriptor (`VecAVX512`, `VecAVX2`,
`VecNEON`, `VecZVECTOR`): usability is exactly the configured boolean
and no `check_build` runs.  The sentinel always evaluates `False`, and
`VecAMX` short-circuits only when the configured boolean is `False`;
with `True` it still runs its AMX-specific verification. -/
theorem c2_vec_isa_ok_override (env : Env) (b : Bool)
    (h : env.cfg.vec_isa_ok = some b) :
    (∀ k, k = VecISAKind.avx512 ∨ k = VecISAKind.avx2
        ∨ k = VecISAKind.neon ∨ k = VecISAKind.zvector →
      isa_bool env k = (.ok b, []))
    ∧ isa_bool env .invalid = (.ok false, [])
    ∧ (b = false → isa_bool env .amx = (.ok false, [])) := by
  refine ⟨?_, rfl, ?_⟩
  · rintro k (rfl | rfl | rfl | rfl) <;> simp [isa_bool, vecISA_bool, h]
  · rintro rfl
    simp [isa_bool, vecAMX_bool, vecISA_bool, h]

/-- C2 witness: in the forced-`True` environment the base AVX512
descriptor evaluates to exactly the forced boolean with no verification
calls, and the sentinel stays `False`. -/
theorem c2_vec_isa_ok_override_witness :
    isa_bool envForcedTrue .avx512 = (.ok true, []) ∧
    isa_bool envForcedTrue .invalid = (.ok false, []) :=
  ⟨(c2_vec_isa_ok_override envForcedTrue true rfl).1 .avx512 (Or.inl rfl),
   (c2_vec_isa_ok_override envForcedTrue true rfl).2.1⟩

/-- C7: with fbcode off, a non-empty valid list and an explicit
`simdlen = n`, selection returns the sentinel when no list element has
bit width `n`, and otherwise the first element (in priority order) whose
bit width is exactly `n`. -/
theorem c7_explicit_simdlen (env : Env) (n : Int) (l : List VecISAKind) (t : List Call)
    (hfb : env.cfg.is_fbcode = false)
    (hsl : env.cfg.simdlen = some n)
    (hv : valid_vec_isa_list env = (.ok l, t))
    (hne : l ≠ []) :
    ((∀ d ∈ l, bit_width d ≠ n) → (pick_vec_isa env).1 = .ok .invalid)
    ∧ (∀ d, (l.find? fun x => n == bit_width x) = some d →
        (pick_vec_isa env).1 = .ok d) := by
  obtain ⟨x, xs, rfl⟩ : ∃ x xs, l = x :: xs := by
    cases l with
    | nil => exact absurd rfl hne
    | cons x xs => exact ⟨x, xs, rfl⟩
  have hp : (pick_vec_isa env).1 = .ok (pickLoop n (x :: xs)) := by
    simp [pick_vec_isa, hfb, hv, hsl]
  constructor
  · intro hnone
    have hfind : (List.find? (fun y => n == bit_width y) (x :: xs)) = none := by
      apply List.find?_eq_none.mpr
      intro d hd
      simpa using (hnone d hd).symm
    rw [hp, pickLoop_eq_find, hfind]
    rfl
  · intro d hd
    rw [hp, pickLoop_eq_find, hd]
    rfl

/-- C7 witness: an avx2-only valid list with `simdlen = 999` yields the
sentinel. -/
theorem c7_explicit_simdlen_witness :
    (pick_vec_isa envSimdlen999).1 = .ok .invalid :=
  (c7_explicit_simdlen envSimdlen999 999 [.avx2] (valid_vec_isa_list envSimdlen999).2
    rfl rfl rfl (by decide)).1 (by decide)

/-- C10: `VecAMX` inherits bit width 512 from `VecAVX512`, and with an
explicit `simdlen = 512` and the AMX descriptor present in the valid
list (alongside the plain 512-bit one), selection returns the AMX
descriptor — the first 512-bit match in priority order. -/
theorem c10_amx_first_512 (env : Env) (l : List VecISAKind) (t : List Call)
    (hfb : env.cfg.is_fbcode = false)
    (hsl : env.cfg.simdlen = some 512)
    (hv : valid_vec_isa_list env = (.ok l, t))
    (hamx : VecISAKind.amx ∈ l) (havx512 : VecISAKind.avx512 ∈ l) :
    bit_width .amx = 512 ∧ bit_width .amx = bit_width .avx512 ∧
      (pick_vec_isa env).1 = .ok .amx := by
  obtain ⟨rest, rfl⟩ := valid_amx_head env l t hv hamx
  refine ⟨rfl, rfl, ?_⟩
  simp [pick_vec_isa, hfb, hv, hsl, pickLoop, bit_width]

/-- C10 witness: full-featured host with `simdlen = 512`; the valid list
is `[amx, avx512, avx2]` and selection returns the AMX descriptor. -/
theorem c10_amx_first_512_witness :
    bit_width .amx = 512 ∧ bit_width .amx = bit_width .avx512 ∧
      (pick_vec_isa envSimdlen512).1 = .ok .amx :=
  c10_amx_first_512 envSimdlen512 [.amx, .avx512, .avx2]
    (valid_vec_isa_list envSimdlen512).2 rfl rfl rfl (by decide) (by decide)

/-- C1 counterexample: on an aarch64 linux host with automatic
configuration (no `vec_isa_ok` override, fbcode off) and an environment
in which every dry-compile would fail, `pick_vec_isa` still returns the
NEON descriptor, with an empty call trace: no verification ever ran, so
the NEON descriptor reached the caller by a route the claim excludes. -/
theorem c1_neon_unverified_counterexample :
    pick_vec_isa envAarch64 = (.ok .neon, []) ∧
    envAarch64.cfg.vec_isa_ok = none ∧
    envAarch64.cfg.is_fbcode = false ∧
    (check_build envAarch64 (archFlagsE envAarch64 .neon) _avx_code).1 = .ok false :=
  ⟨rfl, rfl, rfl, rfl⟩

/-- C1 (amended): on a linux/win32 x86 host — the path on which
descriptors are gated through `bool(isa)` — every non-sentinel
descriptor returned by `pick_vec_isa` either was forced by
`vec_isa_ok = True`, or fbcode short-circuited selection, or its
`_avx_code` dry-compile passed.  The NEON descriptor on
aarch64/darwin-arm hosts and the ZVECTOR descriptor on s390x hosts are
appended without verification and are genuine exceptions to the original
claim. -/
theorem c1_x86_selected_verified (env : Env) (d : VecISAKind) (t : List Call)
    (hsys : env.sys_platform = "linux" ∨ env.sys_platform = "win32")
    (hm : env.machine = "x86_64" ∨ env.machine = "AMD64")
    (hp : pick_vec_isa env = (.ok d, t))
    (hd : d ≠ .invalid) :
    env.cfg.vec_isa_ok = some true ∨ env.cfg.is_fbcode = true ∨
      (check_build env (archFlagsE env d) _avx_code).1 = .ok true := by
  by_cases hfb : env.cfg.is_fbcode = true
  · exact Or.inr (Or.inl hfb)
  · have hfb2 : env.cfg.is_fbcode = false := by simpa using hfb
    unfold pick_vec_isa at hp
    rw [hfb2] at hp
    simp only [Bool.false_eq_true, if_false] at hp
    rcases hv : valid_vec_isa_list env with ⟨rv, tv⟩
    rw [hv] at hp
    cases rv with
    | error e => simp at hp
    | ok lv =>
      have hdl : d ∈ lv := by
        cases lv with
        | nil =>
          simp only [Prod.mk.injEq, Except.ok.injEq] at hp
          exact absurd hp.1.symm hd
        | cons x xs =>
          cases hsl : env.cfg.simdlen with
          | none =>
            rw [hsl] at hp
            simp only [Prod.mk.injEq, Except.ok.injEq] at hp
            rw [← hp.1]
            exact List.mem_cons_self _ _
          | some n =>
            rw [hsl] at hp
            simp only [Prod.mk.injEq, Except.ok.injEq] at hp
            rcases pickLoop_mem n (x :: xs) with hmem | hinv
            · rw [← hp.1]
              exact hmem
            · rw [← hp.1, hinv] at hd
              exact absurd rfl hd
      have hmem := valid_mem_x86 env lv tv hsys hm hv d hdl
      exact isa_bool_true_origin env d hmem.2

/-- C1 witness: baseline x86 host where the AMX descriptor is selected
after passing its dry-compile. -/
theorem c1_x86_selected_verified_witness :
    envBase.cfg.vec_isa_ok = some true ∨ envBase.cfg.is_fbcode = true ∨
      (check_build envBase (archFlagsE envBase .amx) _avx_code).1 = .ok true :=
  c1_x86_selected_verified envBase .amx (pick_vec_isa envBase).2
    (Or.inl rfl) (Or.inl rfl) rfl (by decide)

/-- C6: on a linux/win32 x86 host reporting both the 512-bit feature and
the matrix-tile feature, with automatic configuration (no override, no
fbcode, no simdlen), no probe-write/lock failures, the AMX extra check
failing (its `_amx_code` dry-compile or the runtime tile enable) and the
plain avx512 `_avx_code` dry-compile passing, selection returns the
plain 512-bit descriptor. -/
theorem c6_amx_fail_selects_avx512 (env : Env)
    (hsys : env.sys_platform = "linux" ∨ env.sys_platform = "win32")
    (hm : env.machine = "x86_64" ∨ env.machine = "AMD64")
    (hok : env.cfg.vec_isa_ok = none)
    (hfb : env.cfg.is_fbcode = false)
    (hsl : env.cfg.simdlen = none)
    (h512 : env.cpu_avx512 = true)
    (hamx : env.cpu_amx_tile = true)
    (hnoerr : ∀ flags code, (env.buildOutcome flags code).writeOk = true
        ∧ (env.buildOutcome flags code).lockOk = true)
    (hamxfail : (check_build env (archFlagsE env .amx) _amx_code).1 = .ok false
        ∨ env.init_amx = false)
    (havx512 : (check_build env (archFlagsE env .avx512) _avx_code).1 = .ok true) :
    (pick_vec_isa env).1 = .ok .avx512 := by
  have hchk := x86_checker_full env hm h512 hamx
  have hgAmx : (pySplit (isaStr VecISAKind.amx)).all
      (fun flag => (x86_isa_checker env).contains flag) = true := by
    rw [show pySplit (isaStr VecISAKind.amx) = ["avx512", "amx_tile"] from rfl, hchk]
    cases env.cpu_avx2 <;> decide
  have hgAvx512 : (pySplit (isaStr VecISAKind.avx512)).all
      (fun flag => (x86_isa_checker env).contains flag) = true := by
    rw [show pySplit (isaStr VecISAKind.avx512) = ["avx512"] from rfl, hchk]
    cases env.cpu_avx2 <;> decide
  have hgNeon : (pySplit (isaStr VecISAKind.neon)).all
      (fun flag => (x86_isa_checker env).contains flag) = false := by
    rw [show pySplit (isaStr VecISAKind.neon) = ["asimd"] from rfl, hchk]
    cases env.cpu_avx2 <;> decide
  -- the AMX usability check comes out False
  have hAfst : (isa_bool env .amx).1 = .ok false := by
    have hsuper : vecISA_bool env (archFlagsE env .amx)
        = check_build env (archFlagsE env .amx) _avx_code :=
      vecISA_bool_auto env _ hok hfb
    have hcb1 := check_build_pair_ok env (archFlagsE env .amx) _avx_code
      (hnoerr _ _).1 (hnoerr _ _).2
    show (vecAMX_bool env).1 = .ok false
    unfold vecAMX_bool
    rw [hsuper, hcb1]
    cases hb1 : ((env.buildOutcome (archFlagsE env .amx) _avx_code).outputExists
        || (env.buildOutcome (archFlagsE env .amx) _avx_code).buildOk)
        && (env.buildOutcome (archFlagsE env .amx) _avx_code).loadOk with
    | false => rfl
    | true =>
      rw [hfb]
      simp only [Bool.false_eq_true, if_false]
      have hcb2 := check_build_pair_ok env (archFlagsE env .amx) _amx_code
        (hnoerr _ _).1 (hnoerr _ _).2
      rw [hcb2]
      rcases hamxfail with hf | hf
      · rw [hcb2] at hf
        have hB : (((env.buildOutcome (archFlagsE env .amx) _amx_code).outputExists
            || (env.buildOutcome (archFlagsE env .amx) _amx_code).buildOk)
            && (env.buildOutcome (archFlagsE env .amx) _amx_code).loadOk) = false :=
          Except.ok.inj hf
        simp [hB]
      · simp [hf]
  -- the avx512 usability check comes out True
  have h5fst : (isa_bool env .avx512).1 = .ok true := by
    show (vecISA_bool env (archFlagsE env .avx512)).1 = .ok true
    rw [vecISA_bool_auto env _ hok hfb]
    exact havx512
  -- turn both into pair form
  rcases hApair : isa_bool env .amx with ⟨ra, ta⟩
  rw [hApair] at hAfst
  have hra : ra = .ok false := hAfst
  subst hra
  rcases h5pair : isa_bool env .avx512 with ⟨r5, t5⟩
  rw [h5pair] at h5fst
  have hr5 : r5 = .ok true := h5fst
  subst hr5
  -- the tail of the scan always succeeds
  have hneon : x86Scan env [VecISAKind.neon] = (.ok [], []) := by
    rw [x86Scan_cons_nogate env _ _ hgNeon]
    rfl
  obtain ⟨l2, t2, htail⟩ :
      ∃ l2 t2, x86Scan env [VecISAKind.avx2, VecISAKind.neon] = (.ok l2, t2) := by
    by_cases hg2 : (pySplit (isaStr VecISAKind.avx2)).all
        (fun flag => (x86_isa_checker env).contains flag) = true
    · have hbp : isa_bool env .avx2
          = check_build env (archFlagsE env .avx2) _avx_code :=
        vecISA_bool_auto env _ hok hfb
      rw [check_build_pair_ok env (archFlagsE env .avx2) _avx_code
        (hnoerr _ _).1 (hnoerr _ _).2] at hbp
      cases hb2 : ((env.buildOutcome (archFlagsE env .avx2) _avx_code).outputExists
          || (env.buildOutcome (archFlagsE env .avx2) _avx_code).buildOk)
          && (env.buildOutcome (archFlagsE env .avx2) _avx_code).loadOk with
      | false =>
        rw [hb2] at hbp
        exact ⟨[], _, x86Scan_cons_skip env _ _ _ _ _ hg2 hbp hneon⟩
      | true =>
        rw [hb2] at hbp
        exact ⟨[VecISAKind.avx2], _, x86Scan_cons_keep env _ _ _ _ _ hg2 hbp hneon⟩
    · have hg2f : (pySplit (isaStr VecISAKind.avx2)).all
          (fun flag => (x86_isa_checker env).contains flag) = false := by
        simpa using hg2
      exact ⟨[], [], by rw [x86Scan_cons_nogate env _ _ hg2f]; exact hneon⟩
  have hs3 : x86Scan env [VecISAKind.avx512, VecISAKind.avx2, VecISAKind.neon]
      = (.ok (VecISAKind.avx512 :: l2), t5 ++ t2) :=
    x86Scan_cons_keep env _ _ t5 l2 t2 hgAvx512 h5pair htail
  have hs4 : x86Scan env supported_vec_isa_list
      = (.ok (VecISAKind.avx512 :: l2), ta ++ (t5 ++ t2)) :=
    x86Scan_cons_skip env _ _ ta _ _ hgAmx hApair hs3
  have hv := valid_x86_eq env hsys hm _ _ hs4
  simp [pick_vec_isa, hfb, hv, hsl]

/-- C6 witness: baseline host where the runtime tile enable fails; the
plain avx512 descriptor is selected. -/
theorem c6_amx_fail_selects_avx512_witness :
    (pick_vec_isa envAmxInitFail).1 = .ok .avx512 :=
  c6_amx_fail_selects_avx512 envAmxInitFail (Or.inl rfl) (Or.inl rfl)
    rfl rfl rfl rfl rfl (fun _ _ => ⟨rfl, rfl⟩) (Or.inr rfl) rfl

/-- C8: on a linux/win32 x86 host whose detection reports exactly
the single feature `avx2`, with automatic configuration and the avx2 dry-compile
passing, selection returns the avx2 descriptor, whose bit width is 256
and whose float lane count is 8. -/
theorem c8_avx2_only_host (env : Env)
    (hsys : env.sys_platform = "linux" ∨ env.sys_platform = "win32")
    (hm : env.machine = "x86_64" ∨ env.machine = "AMD64")
    (ha2 : env.cpu_avx2 = true)
    (h512 : env.cpu_avx512 = false)
    (hamx : env.cpu_amx_tile = false)
    (hok : env.cfg.vec_isa_ok = none)
    (hfb : env.cfg.is_fbcode = false)
    (hsl : env.cfg.simdlen = none)
    (hbuild : (check_build env (archFlagsE env .avx2) _avx_code).1 = .ok true) :
    (pick_vec_isa env).1 = .ok .avx2 ∧ bit_width .avx2 = 256
      ∧ nelements .avx2 .float = some 8 := by
  have hchk := x86_checker_avx2only env hm ha2 h512 hamx
  have hgAmx : (pySplit (isaStr VecISAKind.amx)).all
      (fun flag => (x86_isa_checker env).contains flag) = false := by
    rw [show pySplit (isaStr VecISAKind.amx) = ["avx512", "amx_tile"] from rfl, hchk]
    decide
  have hgAvx512 : (pySplit (isaStr VecISAKind.avx512)).all
      (fun flag => (x86_isa_checker env).contains flag) = false := by
    rw [show pySplit (isaStr VecISAKind.avx512) = ["avx512"] from rfl, hchk]
    decide
  have hgAvx2 : (pySplit (isaStr VecISAKind.avx2)).all
      (fun flag => (x86_isa_checker env).contains flag) = true := by
    rw [show pySplit (isaStr VecISAKind.avx2) = ["avx2"] from rfl, hchk]
    decide
  have hgNeon : (pySplit (isaStr VecISAKind.neon)).all
      (fun flag => (x86_isa_checker env).contains flag) = false := by
    rw [show pySplit (isaStr VecISAKind.neon) = ["asimd"] from rfl, hchk]
    decide
  have hbp : isa_bool env .avx2
      = check_build env (archFlagsE env .avx2) _avx_code :=
    vecISA_bool_auto env _ hok hfb
  rcases h2pair : isa_bool env .avx2 with ⟨r2, t2⟩
  have hr2 : r2 = .ok true := by
    rw [h2pair] at hbp
    have : (check_build env (archFlagsE env .avx2) _avx_code).1 = r2 := by
      rw [← hbp]
    rw [hbuild] at this
    exact this.symm
  subst hr2
  have hneon : x86Scan env [VecISAKind.neon] = (.ok [], []) := by
    rw [x86Scan_cons_nogate env _ _ hgNeon]
    rfl
  have hs2 : x86Scan env [VecISAKind.avx2, VecISAKind.neon]
      = (.ok [VecISAKind.avx2], t2 ++ []) :=
    x86Scan_cons_keep env _ _ t2 [] [] hgAvx2 h2pair hneon
  have hs3 : x86Scan env [VecISAKind.avx512, VecISAKind.avx2, VecISAKind.neon]
      = (.ok [VecISAKind.avx2], t2 ++ []) := by
    rw [x86Scan_cons_nogate env _ _ hgAvx512]
    exact hs2
  have hs4 : x86Scan env supported_vec_isa_list
      = (.ok [VecISAKind.avx2], t2 ++ []) := by
    rw [show supported_vec_isa_list
          = VecISAKind.amx :: [VecISAKind.avx512, VecISAKind.avx2, VecISAKind.neon]
        from rfl, x86Scan_cons_nogate env _ _ hgAmx]
    exact hs3
  have hv := valid_x86_eq env hsys hm _ _ hs4
  refine ⟨?_, rfl, rfl⟩
  simp [pick_vec_isa, hfb, hv, hsl]

/-- C8 witness: concrete avx2-only linux host. -/
theorem c8_avx2_only_host_witness :
    (pick_vec_isa envAvx2Only).1 = .ok .avx2 ∧ bit_width .avx2 = 256
      ∧ nelements .avx2 .float = some 8 :=
  c8_avx2_only_host envAvx2Only (Or.inl rfl) (Or.inl rfl)
    rfl rfl rfl rfl rfl rfl rfl

end CpuVecIsa
